import Mathlib

/-
Verification development for the FlightTracker repository.

Shallow embedding of the status-resolution and monitoring-eligibility core:
`src/flightService.js` (getFlightStatus, formatFlightData, getMockFlightStatus)
and `src/server.js` (shouldMonitorFlight, isFlightInPast, updateFlightStatus,
updateAllFlights, in-memory storage path).

Modelling conventions:
- Timestamps are integer milliseconds since the epoch (JS `Date.getTime()`;
  integer millisecond values and the divisions-by-constant comparisons used in
  the source are exact in IEEE doubles for all realistic magnitudes, so exact
  integer arithmetic is faithful: `(a - b) / d > k` with `d, k > 0` holds iff
  `a - b > k * d`).
- A timestamp-valued field of a record or payload is a `TimeField`: `absent`
  (JS `undefined`/`null`/missing, falsy), `invalid` (a present but unparseable
  string: truthy, but `new Date(...)` yields NaN, and every NaN comparison is
  false), or `valid t`.
- Every `new Date()` call inside one function invocation is modelled by a
  single `now` parameter.
- Strings are Lean `String`s; flight numbers are modelled as their list of
  UTF-16 code units (`List Nat`), which is what the mock hash sums.
- Fallible code (JS `throw` caught by a caller) is `Except String`.
-/

namespace FlightTracker

/-- A timestamp-valued field as JS sees it: missing (falsy), present but
unparseable (truthy, `new Date` gives NaN), or a parsed time in ms. -/
inductive TimeField where
  | absent
  | invalid
  | valid (t : Int)
  deriving DecidableEq, Repr, Inhabited, BEq

/-- JS `(now - new Date(tf)) / D > K`, expressed division-free as
`now - t > K * D` (exact for positive `D`); false when the field is missing
(NaN from `new Date(undefined)`) or unparseable (NaN comparisons are false). -/
def elapsedGT (now : Int) (tf : TimeField) (ms : Int) : Bool :=
  match tf with
  | TimeField.valid t => decide (now - t > ms)
  | _ => false

/-- JS `(new Date(tf) - now) / D > K`, division-free; false on missing or
unparseable fields for the same NaN reasons as `elapsedGT`. -/
def untilGT (now : Int) (tf : TimeField) (ms : Int) : Bool :=
  match tf with
  | TimeField.valid t => decide (t - now > ms)
  | _ => false

/-- A flight number, as the list of UTF-16 code units of the string
(what `charCodeAt` iterates over in `getMockFlightStatus`). -/
abbrev FlightNo := List Nat

/-- The loosely-shaped `details` payload produced by the status resolver and
stored in a record's `statusDetails`. Every field is optional, matching the
spec's "shape varies by status kind; never contractually complete". -/
structure Details where
  message : Option String := none
  delayMinutes : Option Int := none
  cancellationReason : Option String := none
  delayReason : Option String := none
  divertedTo : Option String := none
  note : Option String := none
  flightNumber : Option FlightNo := none
  origin : Option String := none
  destination : Option String := none
  scheduledDeparture : TimeField := TimeField.absent
  actualDeparture : TimeField := TimeField.absent
  scheduledArrival : TimeField := TimeField.absent
  estimatedArrival : TimeField := TimeField.absent
  actualArrival : TimeField := TimeField.absent
  aircraftType : Option String := none
  operator : Option String := none
  rawStatus : Option String := none
  deriving DecidableEq, Repr, Inhabited

/-- Result of one status resolution: `{status, details}`. -/
structure Resolution where
  status : String
  details : Details
  deriving DecidableEq, Repr

/-- A FlightRecord as held in the in-memory store of `server.js`. -/
structure FlightRecord where
  id : Nat
  employeeName : String
  flightNumber : FlightNo
  departureTime : TimeField
  origin : Option String
  destination : Option String
  status : String
  statusDetails : Details
  lastChecked : TimeField
  createdAt : Int
  updatedAt : Int
  deriving DecidableEq, Repr

/-- One entry of the fixed mock table in `getMockFlightStatus`. -/
structure MockEntry where
  status : String
  message : String
  delayMinutes : Option Int := none
  cancellationReason : Option String := none
  deriving DecidableEq, Repr, Inhabited

/-- The literal 10-entry `statuses` array of `getMockFlightStatus`
(src/flightService.js lines 176-187), in source order. -/
def mockStatuses : List MockEntry :=
  [ { status := "on-time", message := "Flight is on schedule", delayMinutes := some 0 },
    { status := "on-time", message := "Flight departed on time", delayMinutes := some 0 },
    { status := "on-time", message := "Flight is on schedule", delayMinutes := some 0 },
    { status := "on-time", message := "Flight operating normally", delayMinutes := some 0 },
    { status := "delayed", message := "Flight delayed due to weather", delayMinutes := some 45 },
    { status := "delayed", message := "Flight delayed - mechanical issue", delayMinutes := some 120 },
    { status := "delayed", message := "Flight delayed - crew scheduling", delayMinutes := some 30 },
    { status := "on-time", message := "Flight is on time", delayMinutes := some 0 },
    { status := "cancelled", message := "Flight cancelled due to weather",
      cancellationReason := some "Weather" },
    { status := "on-time", message := "Flight on schedule", delayMinutes := some 0 } ]

/-- The hash of `getMockFlightStatus`: sum of the char codes of the flight
number (`split.reduce` in the source). -/
def mockHash (flightNumber : FlightNo) : Nat :=
  flightNumber.foldl (fun acc c => acc + c) 0

/-- `getMockFlightStatus` (src/flightService.js lines 171-203): pick the
table entry at `hash % 10` and spread in the synthesized mock fields.
`now` stands for `Date.now()`. -/
def getMockFlightStatus (flightNumber : FlightNo) (now : Int) : Resolution :=
  let statusIndex := mockHash flightNumber % 10
  let mockData := mockStatuses.getD statusIndex default
  { status := mockData.status,
    details :=
      { message := some mockData.message,
        delayMinutes := mockData.delayMinutes,
        cancellationReason := mockData.cancellationReason,
        flightNumber := some flightNumber,
        origin := some "JFK",
        destination := some "LAX",
        scheduledDeparture := TimeField.valid (now + 2 * 60 * 60 * 1000),
        estimatedArrival := TimeField.valid (now + 8 * 60 * 60 * 1000),
        note := some "Using mock data - Set FLIGHTAWARE_API_KEY for real data" } }

/-- A raw provider flight payload as consumed by `formatFlightData`, with the
fields the function reads. `cancelled` is the provider's boolean flag;
`delay_minutes` is `none` when the field is missing (JS `undefined`, falsy). -/
structure ProviderFlight where
  ident : Option FlightNo := none
  originCode : Option String := none
  destinationCode : Option String := none
  scheduled_out : TimeField := TimeField.absent
  actual_out : TimeField := TimeField.absent
  scheduled_in : TimeField := TimeField.absent
  estimated_in : TimeField := TimeField.absent
  actual_in : TimeField := TimeField.absent
  aircraft_type : Option String := none
  operator : Option String := none
  status : Option String := none
  cancelled : Bool := false
  delay_minutes : Option Int := none
  divertedCode : Option String := none
  deriving DecidableEq, Repr, Inhabited

/-- JS truthiness-guarded test `flightData.delay_minutes && flightData.delay_minutes > 15`:
a missing field or the (falsy) value 0 fails the guard. -/
def delayMinutesTruthyGT15 : Option Int → Bool
  | none => false
  | some d => decide (d ≠ 0) && decide (d > 15)

/-- JS `Math.round (n / d)` for an integer `n` and positive integer `d`:
rounds half toward positive infinity, i.e. `⌊n / d + 1 / 2⌋`. -/
def jsRound (n d : Int) : Int :=
  Int.fdiv (2 * n + d) (2 * d)

/-- `formatFlightData` (src/flightService.js lines 97-139): classify a genuine
provider payload, first match wins. The departed-late branch computes
`(actualOut - scheduledOut) / 60000 > 15` (NaN, hence false, when either
timestamp is unparseable), exactly `actualOut - scheduledOut > 900000`. -/
def formatFlightData (flightData : ProviderFlight) : Resolution :=
  let details : Details :=
    { flightNumber := flightData.ident,
      origin := some (flightData.originCode.getD "Unknown"),
      destination := some (flightData.destinationCode.getD "Unknown"),
      scheduledDeparture := flightData.scheduled_out,
      actualDeparture := flightData.actual_out,
      scheduledArrival := flightData.scheduled_in,
      estimatedArrival := flightData.estimated_in,
      actualArrival := flightData.actual_in,
      aircraftType := flightData.aircraft_type,
      operator := flightData.operator,
      rawStatus := flightData.status }
  if flightData.cancelled then
    { status := "cancelled", details := { details with cancellationReason := some "Flight cancelled" } }
  else if flightData.status = some "Cancelled" then
    { status := "cancelled", details := details }
  else if flightData.status = some "Diverted" then
    { status := "delayed", details := { details with divertedTo := flightData.divertedCode } }
  else if delayMinutesTruthyGT15 flightData.delay_minutes then
    { status := "delayed",
      details := { details with delayMinutes := flightData.delay_minutes,
                                delayReason := some "Flight delayed" } }
  else if flightData.actual_out != TimeField.absent && flightData.scheduled_out != TimeField.absent then
    match flightData.actual_out, flightData.scheduled_out with
    | TimeField.valid actualOut, TimeField.valid scheduledOut =>
        if actualOut - scheduledOut > 15 * 60 * 1000 then
          { status := "delayed",
            details := { details with
              delayMinutes := some (jsRound (actualOut - scheduledOut) (60 * 1000)) } }
        else { status := "on-time", details := details }
    | _, _ => { status := "on-time", details := details }
  else { status := "on-time", details := details }

/-- The HTTP outcome of the one provider request `getFlightStatus` issues when
a credential is configured. -/
inductive HttpResult where
  | ok (flights : List ProviderFlight)
  | httpError (code : Nat) (msg : String)
  | networkError (msg : String)
  deriving DecidableEq, Repr

/-- The try/catch body of `getFlightStatus` on the credentialed path
(src/flightService.js lines 32-89): empty result set folds to `unknown`,
HTTP 404 folds to `unknown`, HTTP 401 and 429 rethrow dedicated fatal errors,
anything else rethrows a wrapped message. `Except.error` models a JS throw. -/
def getFlightStatusApi (resp : HttpResult) (flightNumber : FlightNo) : Except String Resolution :=
  match resp with
  | HttpResult.ok flightList =>
      match flightList with
      | [] => Except.ok
          { status := "unknown",
            details := { message := some "Flight not found in FlightAware database",
                         flightNumber := some flightNumber } }
      | flight :: _ => Except.ok (formatFlightData flight)
  | HttpResult.httpError code msg =>
      if code = 401 then Except.error "Invalid FlightAware API credentials"
      else if code = 404 then Except.ok
        { status := "unknown",
          details := { message := some "Flight not found",
                       flightNumber := some flightNumber } }
      else if code = 429 then Except.error "FlightAware API rate limit exceeded"
      else Except.error (String.append "Failed to fetch flight status: " msg)
  | HttpResult.networkError msg =>
      Except.error (String.append "Failed to fetch flight status: " msg)

/-- `getFlightStatus` (src/flightService.js lines 26-90): with no API key the
mock resolver answers; otherwise the single provider call is classified. -/
def getFlightStatus (apiKey : Option String) (resp : HttpResult) (now : Int)
    (flightNumber : FlightNo) : Except String Resolution :=
  match apiKey with
  | none => Except.ok (getMockFlightStatus flightNumber now)
  | some _ => getFlightStatusApi resp flightNumber

/-- The write-back half of `updateFlightStatus` (src/server.js lines 232-278,
in-memory path). On success the record gets the new status, details,
`lastChecked` and `updatedAt`; in the catch block the record gets status
"error", a fresh details object holding only the message, and `lastChecked` —
the catch block does not touch `updatedAt`. The transient `status = 'checking'`
assignment made before the provider call is overwritten by both branches
before the cycle ends. -/
def applyStatusResult (result : Except String Resolution) (now : Int)
    (flight : FlightRecord) : FlightRecord :=
  match result with
  | Except.ok statusData =>
      { flight with
          status := statusData.status,
          statusDetails := statusData.details,
          lastChecked := TimeField.valid now,
          updatedAt := now }
  | Except.error msg =>
      { flight with
          status := "error",
          statusDetails := { message := some msg },
          lastChecked := TimeField.valid now }

/-- `updateFlightStatus` (src/server.js lines 217-279): resolve the flight's
status and write the result (or the caught error) back to the record. -/
def updateFlightStatus (apiKey : Option String) (resp : HttpResult) (now : Int)
    (flight : FlightRecord) : FlightRecord :=
  applyStatusResult (getFlightStatus apiKey resp now flight.flightNumber) now flight

/-- `shouldMonitorFlight` (src/server.js lines 131-173). Each rule only ever
returns `false`; the final statement returns `true`. The cancelled rule's
ternary treats a missing `lastChecked` as "0 hours since last check". -/
def shouldMonitorFlight (now : Int) (flight : FlightRecord) : Bool :=
  -- daysUntilDeparture > 7
  if untilGT now flight.departureTime (7 * 24 * 60 * 60 * 1000) then false
  -- if (statusDetails.actualArrival) { hoursSinceLanding > 6 }
  else if flight.statusDetails.actualArrival != TimeField.absent &&
      elapsedGT now flight.statusDetails.actualArrival (6 * 60 * 60 * 1000) then false
  -- if (statusDetails.estimatedArrival) { hoursSinceEstimatedArrival > 6 }
  else if flight.statusDetails.estimatedArrival != TimeField.absent &&
      elapsedGT now flight.statusDetails.estimatedArrival (6 * 60 * 60 * 1000) then false
  -- if (flight.status === 'cancelled') { hoursSinceLastCheck > 24 }
  else if flight.status == "cancelled" then
    if (match flight.lastChecked with
        | TimeField.absent => false
        | tf => elapsedGT now tf (24 * 60 * 60 * 1000)) then false
    else true
  else true

/-- `isFlightInPast` (src/server.js lines 178-212). A truthy (present) arrival
field makes its branch `return` the comparison directly — an unparseable value
yields NaN and the branch returns false without consulting later rules. The
departure fallback is guarded by `!isNaN(departureTime.getTime())`. -/
def isFlightInPast (now : Int) (flight : FlightRecord) : Bool :=
  if flight.statusDetails.actualArrival != TimeField.absent then
    elapsedGT now flight.statusDetails.actualArrival (2 * 60 * 60 * 1000)
  else if flight.statusDetails.estimatedArrival != TimeField.absent then
    elapsedGT now flight.statusDetails.estimatedArrival (2 * 60 * 60 * 1000)
  else if flight.statusDetails.scheduledArrival != TimeField.absent then
    elapsedGT now flight.statusDetails.scheduledArrival (4 * 60 * 60 * 1000)
  else
    match flight.departureTime with
    | TimeField.valid t => decide (now - t > 8 * 60 * 60 * 1000)
    | _ => false

/-- `updateAllFlights` (src/server.js lines 284-316): the bulk sweep. Records
failing `shouldMonitorFlight` are skipped; each eligible record is updated in
place by `updateFlightStatus`, which never throws (it catches every resolver
failure), so the loop always visits every eligible flight. `provider` gives
the HTTP outcome of each flight's request. -/
def updateAllFlights (apiKey : Option String) (provider : FlightNo → HttpResult)
    (now : Int) (flights : List FlightRecord) : List FlightRecord :=
  flights.map (fun flight =>
    if shouldMonitorFlight now flight then
      updateFlightStatus apiKey (provider flight.flightNumber) now flight
    else flight)

/-! Claim-side definitions, written from the wording of the spec or of the
claims (not from the source), for the refinement-style comparisons. -/

/-- Claim-side classification for C6, following the claim's six ordered rules
word for word (first match wins). The second component is the delay-minute
value the claim requires the details to record (rules 4 and 5); other rules
record none. -/
def statusPrecedenceClaim (p : ProviderFlight) : String × Option Int :=
  if p.cancelled then ("cancelled", none)
  else if p.status = some "Cancelled" then ("cancelled", none)
  else if p.status = some "Diverted" then ("delayed", none)
  else if (match p.delay_minutes with | some d => decide (d > 15) | none => false) then
    ("delayed", p.delay_minutes)
  else
    match p.scheduled_out, p.actual_out with
    | TimeField.valid s, TimeField.valid a =>
        if a - s > 15 * 60 * 1000 then ("delayed", some (jsRound (a - s) (60 * 1000)))
        else ("on-time", none)
    | _, _ => ("on-time", none)

/-- Claim-side `isPast` for C3, reading the claim's "first applicable rule
decides" literally: a rule whose condition fails is not applicable and the
next rule is consulted, so the result is the disjunction of the four
conditions. -/
def isPastClaim (now : Int) (flight : FlightRecord) : Bool :=
  elapsedGT now flight.statusDetails.actualArrival (2 * 60 * 60 * 1000) ||
  elapsedGT now flight.statusDetails.estimatedArrival (2 * 60 * 60 * 1000) ||
  elapsedGT now flight.statusDetails.scheduledArrival (4 * 60 * 60 * 1000) ||
  (flight.statusDetails.actualArrival == TimeField.absent &&
    flight.statusDetails.estimatedArrival == TimeField.absent &&
    flight.statusDetails.scheduledArrival == TimeField.absent &&
    elapsedGT now flight.departureTime (8 * 60 * 60 * 1000))

/-- Amended-claim-side `isPast` for C3: the first arrival field that is
present (in the order actual, estimated, scheduled) decides the result
entirely — past exactly when that field parses and exceeds its threshold;
with no arrival field present, a parseable departure more than 8 hours old
decides; otherwise not past. -/
def isPastAmended (now : Int) (flight : FlightRecord) : Bool :=
  if flight.statusDetails.actualArrival != TimeField.absent then
    elapsedGT now flight.statusDetails.actualArrival (2 * 60 * 60 * 1000)
  else if flight.statusDetails.estimatedArrival != TimeField.absent then
    elapsedGT now flight.statusDetails.estimatedArrival (2 * 60 * 60 * 1000)
  else if flight.statusDetails.scheduledArrival != TimeField.absent then
    elapsedGT now flight.statusDetails.scheduledArrival (4 * 60 * 60 * 1000)
  else
    elapsedGT now flight.departureTime (8 * 60 * 60 * 1000)

/-- Amended-claim-side mock table for C2, by reduced hash index: entries 0-3
on-time (delayMinutes 0), entries 4-6 delayed with delayMinutes 45, 120, 30,
entry 7 on-time, entry 8 cancelled (no delayMinutes), entry 9 on-time. -/
def mockTableAmended (i : Nat) : String × Option Int :=
  if i = 4 then ("delayed", some 45)
  else if i = 5 then ("delayed", some 120)
  else if i = 6 then ("delayed", some 30)
  else if i = 8 then ("cancelled", none)
  else ("on-time", some 0)

/-- Replace an unparseable timestamp by a missing one. -/
def tfEraseInvalid : TimeField → TimeField
  | TimeField.invalid => TimeField.absent
  | tf => tf

/-- Replace every unparseable timestamp field of a record by a missing one
(used to state that a function treats unparseable exactly as absent). -/
def eraseInvalid (flight : FlightRecord) : FlightRecord :=
  { flight with
      departureTime := tfEraseInvalid flight.departureTime,
      lastChecked := tfEraseInvalid flight.lastChecked,
      statusDetails := { flight.statusDetails with
        scheduledDeparture := tfEraseInvalid flight.statusDetails.scheduledDeparture,
        actualDeparture := tfEraseInvalid flight.statusDetails.actualDeparture,
        scheduledArrival := tfEraseInvalid flight.statusDetails.scheduledArrival,
        estimatedArrival := tfEraseInvalid flight.statusDetails.estimatedArrival,
        actualArrival := tfEraseInvalid flight.statusDetails.actualArrival } }

/-! Concrete records and payloads used as inputs of the closed theorems. -/

/-- A plain in-memory record as created by POST /api/flights ("AA1234",
departure at epoch, empty status details, never checked). -/
def baseRecord : FlightRecord :=
  { id := 1,
    employeeName := "Alex Doe",
    flightNumber := [65, 65, 49, 50, 51, 52],
    departureTime := TimeField.valid 0,
    origin := some "JFK",
    destination := some "LAX",
    status := "on-time",
    statusDetails := {},
    lastChecked := TimeField.absent,
    createdAt := 0,
    updatedAt := 5 }

/-- Record with a fresh actual arrival (0h old at now = 36000000) next to a
stale estimated arrival (10h old). -/
def recFreshActualStaleEstimate : FlightRecord :=
  { baseRecord with
      statusDetails :=
        { actualArrival := TimeField.valid 36000000,
          estimatedArrival := TimeField.valid 0 } }

/-- Record with an unparseable actual arrival next to a stale (10h old at
now = 36000000) scheduled arrival, and no departure time. -/
def recInvalidActual : FlightRecord :=
  { baseRecord with
      departureTime := TimeField.absent,
      statusDetails :=
        { actualArrival := TimeField.invalid,
          scheduledArrival := TimeField.valid 0 } }

/-- A cancelled record that was never checked. -/
def recCancelledNeverChecked : FlightRecord :=
  { baseRecord with status := "cancelled", lastChecked := TimeField.absent }

/-- Second record for the two-flight sweep evaluation. -/
def recSweepSecond : FlightRecord :=
  { baseRecord with id := 2, flightNumber := [85, 65, 53, 53] }

/-! Helper lemmas shared by the claim proofs. -/

/-- The JS truthiness guard in front of a NaN-safe comparison is redundant:
`elapsedGT` is already false on an absent field. -/
theorem truthy_and_elapsedGT (now : Int) (tf : TimeField) (ms : Int) :
    ((tf != TimeField.absent) && elapsedGT now tf ms) = elapsedGT now tf ms := by
  cases tf <;> rfl

/-- Unfolding of `elapsedGT` into an existential over the parsed time. -/
theorem elapsedGT_eq_true_iff (now : Int) (tf : TimeField) (ms : Int) :
    elapsedGT now tf ms = true ↔ ∃ t, tf = TimeField.valid t ∧ now - t > ms := by
  cases tf <;> simp [elapsedGT]

/-- Unfolding of `untilGT` into an existential over the parsed time. -/
theorem untilGT_eq_true_iff (now : Int) (tf : TimeField) (ms : Int) :
    untilGT now tf ms = true ↔ ∃ t, tf = TimeField.valid t ∧ t - now > ms := by
  cases tf <;> simp [untilGT]

/-- The cancelled-rule ternary of `shouldMonitorFlight` collapses to
`elapsedGT`: both a missing and an unparseable `lastChecked` fail the
24-hour test. -/
theorem lastChecked_match_eq (now : Int) (tf : TimeField) :
    (match tf with
     | TimeField.absent => false
     | tf' => elapsedGT now tf' (24 * 60 * 60 * 1000)) =
      elapsedGT now tf (24 * 60 * 60 * 1000) := by
  cases tf <;> rfl

/-- `mockStatuses` entry lookup agrees with the amended table at every
index below 10. -/
theorem mockStatuses_getD_eq (i : Nat) (h : i < 10) :
    ((mockStatuses.getD i default).status, (mockStatuses.getD i default).delayMinutes) =
      mockTableAmended i := by
  interval_cases i <;> rfl

/-- Truthiness of a parsed timestamp field. -/
theorem tf_valid_bne_absent (t : Int) :
    (TimeField.valid t != TimeField.absent) = true := rfl

/-- Truthiness of an unparseable timestamp field. -/
theorem tf_invalid_bne_absent : (TimeField.invalid != TimeField.absent) = true := rfl

/-- Falsiness of a missing timestamp field. -/
theorem tf_absent_bne_absent : (TimeField.absent != TimeField.absent) = false := rfl

/-- `elapsedGT` on a missing field is false. -/
theorem elapsedGT_absent (now ms : Int) :
    elapsedGT now TimeField.absent ms = false := rfl

/-- `elapsedGT` does not distinguish an unparseable field from a missing one. -/
theorem elapsedGT_tfEraseInvalid (now : Int) (tf : TimeField) (ms : Int) :
    elapsedGT now (tfEraseInvalid tf) ms = elapsedGT now tf ms := by
  cases tf <;> rfl

/-- `untilGT` does not distinguish an unparseable field from a missing one. -/
theorem untilGT_tfEraseInvalid (now : Int) (tf : TimeField) (ms : Int) :
    untilGT now (tfEraseInvalid tf) ms = untilGT now tf ms := by
  cases tf <;> rfl

/-- Closed form of `shouldMonitorFlight`: the early-return chain computes the
negation of the disjunction of the four disqualifying tests. -/
theorem shouldMonitorFlight_eq_core (now : Int) (flight : FlightRecord) :
    shouldMonitorFlight now flight =
      !(untilGT now flight.departureTime (7 * 24 * 60 * 60 * 1000) ||
        elapsedGT now flight.statusDetails.actualArrival (6 * 60 * 60 * 1000) ||
        elapsedGT now flight.statusDetails.estimatedArrival (6 * 60 * 60 * 1000) ||
        ((flight.status == "cancelled") &&
          elapsedGT now flight.lastChecked (24 * 60 * 60 * 1000))) := by
  unfold shouldMonitorFlight
  rw [truthy_and_elapsedGT, truthy_and_elapsedGT, lastChecked_match_eq]
  cases untilGT now flight.departureTime (7 * 24 * 60 * 60 * 1000) <;>
    cases elapsedGT now flight.statusDetails.actualArrival (6 * 60 * 60 * 1000) <;>
    cases elapsedGT now flight.statusDetails.estimatedArrival (6 * 60 * 60 * 1000) <;>
    cases elapsedGT now flight.lastChecked (24 * 60 * 60 * 1000) <;>
    cases flight.status == "cancelled" <;> rfl

/-- Claim C2 counterexample: the claim places the cancelled entry at table
index 7 and on-time entries at 8 and 9, but a flight number hashing to 7
(single char code 7) resolves on-time while one hashing to 8 resolves
cancelled — the cancelled entry sits at index 8, not 7. -/
theorem C2_mock_table_counterexample :
    (getMockFlightStatus [7] 0).status = "on-time" ∧
    (getMockFlightStatus [8] 0).status = "cancelled" :=
  ⟨rfl, rfl⟩

/-- Claim C2 (amended): the mock resolver hashes by summing character codes,
reduces modulo 10 and indexes the fixed table whose order is: entries 0-3
on-time with delayMinutes 0, entries 4-6 delayed with delayMinutes 45, 120,
30, entry 7 on-time, entry 8 cancelled, entry 9 on-time. -/
theorem C2_mock_table_amended (flightNumber : FlightNo) (now : Int) :
    ((getMockFlightStatus flightNumber now).status,
      (getMockFlightStatus flightNumber now).details.delayMinutes) =
      mockTableAmended (mockHash flightNumber % 10) :=
  mockStatuses_getD_eq (mockHash flightNumber % 10) (Nat.mod_lt _ (by decide))

/-- Claim C3 counterexample: with an actual arrival 0 hours old (rule 1 not
applicable under the claim's reading) and an estimated arrival 10 hours old,
the claim's first-applicable-rule evaluation says past, but the code returns
not-past: a present actual arrival decides the result by itself. -/
theorem C3_isPast_counterexample :
    isPastClaim 36000000 recFreshActualStaleEstimate = true ∧
    isFlightInPast 36000000 recFreshActualStaleEstimate = false :=
  ⟨rfl, rfl⟩

/-- Claim C3 (amended): `isPast` consults the arrival fields in the order
actual, estimated, scheduled, and the first field that is present decides the
result entirely (past exactly when it parses and exceeds its 2/2/4-hour
threshold); with no arrival field present, a parseable departure more than
8 hours old decides; otherwise not past. -/
theorem C3_isPast_first_present_decides (now : Int) (flight : FlightRecord) :
    isFlightInPast now flight = isPastAmended now flight :=
  rfl

/-- Claim C4 counterexample: an unparseable actual arrival is not treated as
absent by `isPast`: next to a 10-hour-old scheduled arrival the record with
the unparseable field is not past, while erasing that field to absent makes
the scheduled-arrival rule fire. -/
theorem C4_isPast_counterexample :
    isFlightInPast 36000000 recInvalidActual = false ∧
    isFlightInPast 36000000 (eraseInvalid recInvalidActual) = true :=
  ⟨rfl, rfl⟩

/-- Claim C4 (amended): both filters are total functions of the record (the
embedding is total by construction, matching never-throws). `shouldMonitor`
treats unparseable timestamps exactly as absent ones. In `isPast`, an
unparseable arrival field does not fall through: the first present arrival
field (actual, then estimated, then scheduled) ends evaluation, yielding
not-past when unparseable; only with no arrival field present at all does the
departure fallback apply, where unparseable again behaves as absent. -/
theorem C4_unparseable_fallthrough (now : Int) (flight : FlightRecord) :
    shouldMonitorFlight now (eraseInvalid flight) = shouldMonitorFlight now flight ∧
    (flight.statusDetails.actualArrival = TimeField.invalid →
      isFlightInPast now flight = false) ∧
    (flight.statusDetails.actualArrival = TimeField.absent →
      flight.statusDetails.estimatedArrival = TimeField.invalid →
      isFlightInPast now flight = false) ∧
    (flight.statusDetails.actualArrival = TimeField.absent →
      flight.statusDetails.estimatedArrival = TimeField.absent →
      flight.statusDetails.scheduledArrival = TimeField.invalid →
      isFlightInPast now flight = false) ∧
    (flight.statusDetails.actualArrival = TimeField.absent →
      flight.statusDetails.estimatedArrival = TimeField.absent →
      flight.statusDetails.scheduledArrival = TimeField.absent →
      isFlightInPast now (eraseInvalid flight) = isFlightInPast now flight) := by
  refine ⟨?_, ?_, ?_, ?_, ?_⟩
  · rw [shouldMonitorFlight_eq_core, shouldMonitorFlight_eq_core]
    simp [eraseInvalid, elapsedGT_tfEraseInvalid, untilGT_tfEraseInvalid]
  · intro h1
    simp +decide [isFlightInPast, h1, elapsedGT]
  · intro h1 h2
    simp +decide [isFlightInPast, h1, h2, elapsedGT]
  · intro h1 h2 h3
    simp +decide [isFlightInPast, h1, h2, h3, elapsedGT]
  · intro h1 h2 h3
    cases hdep : flight.departureTime <;>
      simp [isFlightInPast, eraseInvalid, tfEraseInvalid, h1, h2, h3, hdep]

/-- Claim C4 witness instantiating the amended theorem on the record with the
unparseable actual arrival. -/
theorem C4_unparseable_fallthrough_witness :
    isFlightInPast 36000000 recInvalidActual = false :=
  (C4_unparseable_fallthrough 36000000 recInvalidActual).2.1 rfl

/-- Claim C5 counterexample: a resolution cycle in which the provider call
fails does run (it stamps `lastChecked` with the current time) yet leaves
`updatedAt` untouched, so a failing cycle does not update all four fields. -/
theorem C5_updatedAt_counterexample :
    (applyStatusResult (Except.error "network timeout") 99 baseRecord).lastChecked =
        TimeField.valid 99 ∧
    (applyStatusResult (Except.error "network timeout") 99 baseRecord).updatedAt =
        baseRecord.updatedAt ∧
    baseRecord.updatedAt ≠ 99 :=
  ⟨rfl, rfl, by decide⟩

/-- Claim C5 (amended): a successful resolution cycle sets `status`,
`statusDetails`, `lastChecked` and `updatedAt` and changes nothing else; a
failing cycle sets `status` to "error", replaces `statusDetails` by a fresh
details object holding only the failure message, sets `lastChecked`, and
changes nothing else — in particular it leaves `updatedAt` unchanged. -/
theorem C5_cycle_frame (now : Int) (flight : FlightRecord) (statusData : Resolution)
    (msg : String) :
    ((applyStatusResult (Except.ok statusData) now flight).status = statusData.status ∧
     (applyStatusResult (Except.ok statusData) now flight).statusDetails = statusData.details ∧
     (applyStatusResult (Except.ok statusData) now flight).lastChecked = TimeField.valid now ∧
     (applyStatusResult (Except.ok statusData) now flight).updatedAt = now ∧
     (applyStatusResult (Except.ok statusData) now flight).id = flight.id ∧
     (applyStatusResult (Except.ok statusData) now flight).employeeName = flight.employeeName ∧
     (applyStatusResult (Except.ok statusData) now flight).flightNumber = flight.flightNumber ∧
     (applyStatusResult (Except.ok statusData) now flight).departureTime = flight.departureTime ∧
     (applyStatusResult (Except.ok statusData) now flight).origin = flight.origin ∧
     (applyStatusResult (Except.ok statusData) now flight).destination = flight.destination ∧
     (applyStatusResult (Except.ok statusData) now flight).createdAt = flight.createdAt) ∧
    ((applyStatusResult (Except.error msg) now flight).status = "error" ∧
     (applyStatusResult (Except.error msg) now flight).statusDetails =
        { message := some msg } ∧
     (applyStatusResult (Except.error msg) now flight).lastChecked = TimeField.valid now ∧
     (applyStatusResult (Except.error msg) now flight).updatedAt = flight.updatedAt ∧
     (applyStatusResult (Except.error msg) now flight).id = flight.id ∧
     (applyStatusResult (Except.error msg) now flight).employeeName = flight.employeeName ∧
     (applyStatusResult (Except.error msg) now flight).flightNumber = flight.flightNumber ∧
     (applyStatusResult (Except.error msg) now flight).departureTime = flight.departureTime ∧
     (applyStatusResult (Except.error msg) now flight).origin = flight.origin ∧
     (applyStatusResult (Except.error msg) now flight).destination = flight.destination ∧
     (applyStatusResult (Except.error msg) now flight).createdAt = flight.createdAt) :=
  ⟨⟨rfl, rfl, rfl, rfl, rfl, rfl, rfl, rfl, rfl, rfl, rfl⟩,
   ⟨rfl, rfl, rfl, rfl, rfl, rfl, rfl, rfl, rfl, rfl, rfl⟩⟩

/-- Claim C6: classification of a genuine provider payload follows the six
ordered rules with first match winning, recording the claimed delay minutes;
in particular cancelled=true with delay 120 classifies cancelled, a reported
delay of exactly 15 is not delayed, and 16 is delayed. -/
theorem C6_precedence (p : ProviderFlight) :
    (((formatFlightData p).status, (formatFlightData p).details.delayMinutes) =
        statusPrecedenceClaim p) ∧
    (formatFlightData { cancelled := true, delay_minutes := some 120 }).status =
      "cancelled" ∧
    (formatFlightData { delay_minutes := some 15 }).status = "on-time" ∧
    (formatFlightData { delay_minutes := some 16 }).status = "delayed" := by
  refine ⟨?_, rfl, rfl, rfl⟩
  rcases p with ⟨ident, oc, dc, so, ao, si, ei, ai, aty, op, st, cn, dm, dv⟩
  cases cn
  case true => rfl
  case false =>
  by_cases h1 : st = some "Cancelled"
  · simp [formatFlightData, statusPrecedenceClaim, h1]
  by_cases h2 : st = some "Diverted"
  · simp [formatFlightData, statusPrecedenceClaim, h1, h2]
  rcases dm with _ | d <;> cases so <;> cases ao <;>
    simp [formatFlightData, statusPrecedenceClaim, delayMinutesTruthyGT15,
      h1, h2, tf_valid_bne_absent, tf_invalid_bne_absent, tf_absent_bne_absent] <;>
    split_ifs <;> simp_all

/-- Claim C7: `shouldMonitor` returns false exactly when the departure is
more than 7 days out, or a parsed actual or estimated arrival is more than
6 hours old, or the record is cancelled with a parsed `lastChecked` more than
24 hours old. -/
theorem C7_shouldMonitor_iff (now : Int) (flight : FlightRecord) :
    shouldMonitorFlight now flight = false ↔
      ((∃ t, flight.departureTime = TimeField.valid t ∧
          t - now > 7 * 24 * 60 * 60 * 1000) ∨
       (∃ t, flight.statusDetails.actualArrival = TimeField.valid t ∧
          now - t > 6 * 60 * 60 * 1000) ∨
       (∃ t, flight.statusDetails.estimatedArrival = TimeField.valid t ∧
          now - t > 6 * 60 * 60 * 1000) ∨
       (flight.status = "cancelled" ∧
         ∃ t, flight.lastChecked = TimeField.valid t ∧
            now - t > 24 * 60 * 60 * 1000)) := by
  rw [shouldMonitorFlight_eq_core]
  have hnot : ∀ b : Bool, ((!b) = false ↔ b = true) := by decide
  rw [hnot]
  simp only [Bool.or_eq_true, Bool.and_eq_true, beq_iff_eq,
    untilGT_eq_true_iff, elapsedGT_eq_true_iff]
  rw [or_assoc, or_assoc]

/-- Claim C8: a flight number whose character-code sum is 0 modulo 10 mocks
to on-time with delayMinutes 0; a sum of 8 modulo 10 mocks to cancelled. -/
theorem C8_mock_residues (flightNumber : FlightNo) (now : Int) :
    (mockHash flightNumber % 10 = 0 →
      (getMockFlightStatus flightNumber now).status = "on-time" ∧
      (getMockFlightStatus flightNumber now).details.delayMinutes = some 0) ∧
    (mockHash flightNumber % 10 = 8 →
      (getMockFlightStatus flightNumber now).status = "cancelled") := by
  have key : ((getMockFlightStatus flightNumber now).status,
      (getMockFlightStatus flightNumber now).details.delayMinutes) =
        mockTableAmended (mockHash flightNumber % 10) :=
    mockStatuses_getD_eq (mockHash flightNumber % 10) (Nat.mod_lt _ (by decide))
  constructor
  · intro h0
    rw [h0] at key
    simpa [mockTableAmended, Prod.ext_iff] using key
  · intro h8
    rw [h8] at key
    exact (Prod.ext_iff.mp key).1

/-- Claim C8 witness: char-code lists summing to 10 and to 8. -/
theorem C8_mock_residues_witness :
    (getMockFlightStatus [10] 0).status = "on-time" ∧
    (getMockFlightStatus [8] 0).status = "cancelled" :=
  ⟨((C8_mock_residues [10] 0).1 (by decide)).1,
   (C8_mock_residues [8] 0).2 (by decide)⟩

/-- Claim C9: with no credential configured the mock resolver is
deterministic in its status and delay-minute fields: two calls with the same
flight number agree on both, whatever the two call times are. -/
theorem C9_mock_deterministic (flightNumber : FlightNo) (now1 now2 : Int) :
    getFlightStatus none (HttpResult.ok []) now1 flightNumber =
      Except.ok (getMockFlightStatus flightNumber now1) ∧
    (getMockFlightStatus flightNumber now1).status =
      (getMockFlightStatus flightNumber now2).status ∧
    (getMockFlightStatus flightNumber now1).details.delayMinutes =
      (getMockFlightStatus flightNumber now2).details.delayMinutes :=
  ⟨rfl, rfl, rfl⟩

/-- Claim C10: a cancelled record that was never checked is treated as
0 hours since the last check, so the 24-hour cancelled cutoff never
disqualifies it; absent any other disqualifying rule, it is monitored. -/
theorem C10_cancelled_never_checked (now : Int) (flight : FlightRecord)
    (_hstatus : flight.status = "cancelled")
    (hlast : flight.lastChecked = TimeField.absent)
    (hdep : untilGT now flight.departureTime (7 * 24 * 60 * 60 * 1000) = false)
    (hact : elapsedGT now flight.statusDetails.actualArrival (6 * 60 * 60 * 1000) = false)
    (hest : elapsedGT now flight.statusDetails.estimatedArrival (6 * 60 * 60 * 1000) = false) :
    shouldMonitorFlight now flight = true := by
  rw [shouldMonitorFlight_eq_core]
  norm_num at hdep hact hest
  simp [hdep, hact, hest, hlast, elapsedGT_absent]

/-- Claim C10 witness: concrete cancelled, never-checked record. -/
theorem C10_cancelled_never_checked_witness :
    shouldMonitorFlight 0 recCancelledNeverChecked = true :=
  C10_cancelled_never_checked 0 recCancelledNeverChecked rfl rfl rfl rfl rfl

/-- Claim C1, evaluated at the failing input: when the provider answers
HTTP 401 for every flight, `getFlightStatus` does throw the dedicated
credentials error, but `updateFlightStatus` catches it and stamps the record
with status "error", and the sweep goes on to process the remaining flight —
the code contradicts the spec's fatal-auth-failure design. -/
theorem C1_auth_failure_swallowed :
    getFlightStatusApi (HttpResult.httpError 401 "Unauthorized") [65] =
      Except.error "Invalid FlightAware API credentials" ∧
    (updateAllFlights (some "key") (fun _ => HttpResult.httpError 401 "Unauthorized") 0
        [baseRecord, recSweepSecond]).map FlightRecord.status = ["error", "error"] ∧
    (updateAllFlights (some "key") (fun _ => HttpResult.httpError 401 "Unauthorized") 0
        [baseRecord, recSweepSecond]).map
          (fun f => f.statusDetails.message) =
      [some "Invalid FlightAware API credentials",
       some "Invalid FlightAware API credentials"] :=
  ⟨rfl, rfl, rfl⟩

end FlightTracker
